import Mathlib

/-!
Verification of the geometry/layout and interaction-state core of the
neo4j-schema-modeler repository, via a shallow embedding in Lean.

Machine numbers are modelled as exact rationals (every JavaScript double is
a rational, so properties proved over all of ℚ cover all machine inputs);
where non-finite IEEE values (NaN / Infinity) can arise, values are modelled
as `Option ℝ` with `none` standing for a non-finite value.
-/

namespace SchemaModeler

/- ===== Constants (src/src/constants/index.ts) ===== -/

abbrev NODE_RADIUS : ℚ := 50

abbrev ZOOM_MIN : ℚ := 0.2

abbrev ZOOM_MAX : ℚ := 3

abbrev SELF_LOOP_BASE_SIZE : ℚ := 75

abbrev SELF_LOOP_INCREMENT : ℚ := 40

/- ===== Data model (types, src/unnamed/part_001) ===== -/

/-- Property record: name, type name, and the three optional flags. -/
structure PropertyType where
  name : String
  type : String
  required : Option Bool := none
  unique : Option Bool := none
  indexed : Option Bool := none
  deriving DecidableEq, Repr

/-- Node payload (label, ordered properties, color, optional extras). -/
structure Neo4jNodeData where
  label : String
  properties : List PropertyType
  color : String
  definition : Option String := none
  propertyPanelPosition : Option String := none
  deriving DecidableEq, Repr

/-- A schema node with its canvas position. -/
structure Node where
  id : String
  x : ℚ
  y : ℚ
  data : Neo4jNodeData
  deriving DecidableEq, Repr

/-- Edge payload. `labelStyle` is declared in the source as the union type
`RelationshipLabelStyle = "inline" | "top" | "bottom"`; we carry it as an
optional string and express the union-type constraint separately. -/
structure Neo4jEdgeData where
  relationshipType : String
  properties : List PropertyType
  color : String
  labelStyle : Option String := none
  deriving DecidableEq, Repr

/-- A directed edge between two node ids (possibly equal: self-edge). -/
structure Edge where
  id : String
  source : String
  target : String
  data : Neo4jEdgeData
  deriving DecidableEq, Repr

/-- Membership test of the declared union type
`RelationshipLabelStyle = "inline" | "top" | "bottom"` (src/unnamed/part_001). -/
def isRelationshipLabelStyle (s : String) : Bool :=
  s == "inline" || s == "top" || s == "bottom"

/-- A 2D position. -/
structure Position where
  x : ℚ
  y : ℚ
  deriving DecidableEq, Repr

/-- Container bounding rectangle (the part of getBoundingClientRect used). -/
structure Rect where
  left : ℚ
  top : ℚ
  deriving DecidableEq, Repr

/- ===== Canvas state (useCanvasState, src/unnamed/part_000) ===== -/

/-- The state held by useCanvasState that the claims concern. -/
structure CanvasState where
  panOffset : Position
  zoom : ℚ
  isPanning : Bool
  selectedNodeId : Option String
  selectedEdgeId : Option String
  hoveredNodeId : Option String
  deriving DecidableEq, Repr

/-- Initial canvas state: pan (0,0), zoom 1, nothing selected. -/
def initialCanvasState : CanvasState :=
  { panOffset := ⟨0, 0⟩, zoom := 1, isPanning := false,
    selectedNodeId := none, selectedEdgeId := none, hoveredNodeId := none }

/-- selectNode: sets selectedNodeId and clears selectedEdgeId. -/
def selectNode (nodeId : Option String) (s : CanvasState) : CanvasState :=
  { s with selectedNodeId := nodeId, selectedEdgeId := none }

/-- selectEdge: sets selectedEdgeId and clears selectedNodeId. -/
def selectEdge (edgeId : Option String) (s : CanvasState) : CanvasState :=
  { s with selectedEdgeId := edgeId, selectedNodeId := none }

/-- clearSelection: clears both selection fields. -/
def clearSelection (s : CanvasState) : CanvasState :=
  { s with selectedNodeId := none, selectedEdgeId := none }

/-- zoomIn: multiply by 1.2, clamp from above at ZOOM_MAX. -/
def zoomIn (zoom : ℚ) : ℚ := min ZOOM_MAX (zoom * 1.2)

/-- zoomOut: multiply by 0.8, clamp from below at ZOOM_MIN. -/
def zoomOut (zoom : ℚ) : ℚ := max ZOOM_MIN (zoom * 0.8)

/-- handleWheel, non-shift branch: multiply by 0.9 (scroll down) or 1.1
(scroll up), clamp into [ZOOM_MIN, ZOOM_MAX]. -/
def wheelZoom (deltaY : ℚ) (zoom : ℚ) : ℚ :=
  let delta : ℚ := if deltaY > 0 then 0.9 else 1.1
  max ZOOM_MIN (min ZOOM_MAX (zoom * delta))

/-- screenToCanvas (with the container rectangle made explicit). -/
def screenToCanvas (rect : Rect) (panOffset : Position) (zoom : ℚ)
    (clientX clientY : ℚ) : Position :=
  ⟨(clientX - rect.left - panOffset.x) / zoom,
   (clientY - rect.top - panOffset.y) / zoom⟩

/-- canvasToScreen (with the container rectangle made explicit). -/
def canvasToScreen (rect : Rect) (panOffset : Position) (zoom : ℚ)
    (x y : ℚ) : Position :=
  ⟨x * zoom + panOffset.x + rect.left,
   y * zoom + panOffset.y + rect.top⟩

/-- One zoom-affecting operation of the hook. -/
inductive ZoomOp where
  | zin : ZoomOp
  | zout : ZoomOp
  | wheel : ℚ → ZoomOp
  deriving DecidableEq, Repr

/-- Apply one zoom operation to the zoom factor. -/
def applyZoomOp (z : ℚ) : ZoomOp → ℚ
  | ZoomOp.zin => zoomIn z
  | ZoomOp.zout => zoomOut z
  | ZoomOp.wheel d => wheelZoom d z

/-- Apply a sequence of zoom operations. -/
def applyZoomOps (z : ℚ) (ops : List ZoomOp) : ℚ := ops.foldl applyZoomOp z

/-- One selection-affecting operation of the hook. -/
inductive SelOp where
  | node : Option String → SelOp
  | edge : Option String → SelOp
  | clear : SelOp
  deriving DecidableEq, Repr

/-- Apply one selection operation to the canvas state. -/
def applySelOp (s : CanvasState) : SelOp → CanvasState
  | SelOp.node id => selectNode id s
  | SelOp.edge id => selectEdge id s
  | SelOp.clear => clearSelection s

/-- Apply a sequence of selection operations. -/
def applySelOps (s : CanvasState) (ops : List SelOp) : CanvasState :=
  ops.foldl applySelOp s

/-- At most one of the two selection fields is non-null. -/
def selectionExclusive (s : CanvasState) : Prop :=
  s.selectedNodeId = none ∨ s.selectedEdgeId = none

/- ===== Schema store (useSchemaState, src/src/hooks/useSchemaState.ts) ===== -/

/-- The node and edge collections owned by useSchemaState. -/
structure SchemaState where
  nodes : List Node
  edges : List Edge
  deriving DecidableEq, Repr

/-- deleteNode: drop the node with this id and every edge touching it. -/
def deleteNode (id : String) (s : SchemaState) : SchemaState :=
  { s with
    nodes := s.nodes.filter (fun n => n.id != id),
    edges := s.edges.filter (fun e => e.source != id && e.target != id) }

/-- JavaScript `a || d` on an optional string: `none`, and the falsy empty
string, fall back to the default. -/
def jsOrString (v : Option String) (d : String) : String :=
  match v with
  | some str => if str = "" then d else str
  | none => d

/-- Partial edge payload (the `Partial Neo4jEdgeData` argument of addEdge). -/
structure EdgeDataPartial where
  relationshipType : Option String := none
  properties : Option (List PropertyType) := none
  color : Option String := none
  labelStyle : Option String := none
  deriving DecidableEq, Repr

/-- addEdge: builds the new edge record exactly as the source does (the
time-derived id is passed in as `newId`) and appends it to the collection. -/
def addEdge (newId : String) (sourceId targetId : String)
    (data : Option EdgeDataPartial) (s : SchemaState) : SchemaState × Edge :=
  let isSelf := sourceId == targetId
  let newEdge : Edge :=
    { id := newId, source := sourceId, target := targetId,
      data :=
        { relationshipType :=
            jsOrString (data.bind (fun d => d.relationshipType))
              (if isSelf then "SELF_REF" else "RELATES_TO"),
          properties := (data.bind (fun d => d.properties)).getD [],
          color := jsOrString (data.bind (fun d => d.color)) "#6b7280",
          labelStyle :=
            some (jsOrString (data.bind (fun d => d.labelStyle)) "badge") } }
  ({ s with edges := s.edges ++ [newEdge] }, newEdge)

/-- duplicateNode: find the node by id; if present, append a copy shifted by
(+120, +60) with "_copy" appended to the label (the time-derived id of the
copy is passed in as `newId`); otherwise return null and change nothing. -/
def duplicateNode (newId : String) (id : String) (s : SchemaState) :
    SchemaState × Option Node :=
  match s.nodes.find? (fun n => n.id == id) with
  | some node =>
      let newNode : Node :=
        { id := newId, x := node.x + 120, y := node.y + 60,
          data := { node.data with
                    label := node.data.label ++ "_copy",
                    properties := node.data.properties } }
      ({ s with nodes := s.nodes ++ [newNode] }, some newNode)
  | none => (s, none)

/-- loadSchema: replace both collections wholesale. -/
def loadSchema (newNodes : List Node) (newEdges : List Edge) : SchemaState :=
  { nodes := newNodes, edges := newEdges }

/- ===== Import handling (handleFileImport, src/src/App.tsx) ===== -/

/-- A parsed import document: each collection may be missing. -/
structure ImportDoc where
  nodes : Option (List Node)
  edges : Option (List Edge)
  deriving DecidableEq, Repr

/-- handleFileImport, after JSON parsing: accept (replace both collections
via loadSchema) only when both arrays are present, otherwise leave the
existing state untouched. -/
def handleFileImport (doc : ImportDoc) (s : SchemaState) : SchemaState :=
  match doc.nodes, doc.edges with
  | some ns, some es => loadSchema ns es
  | _, _ => s

/- ===== Edge layout helpers (src/src/utils/index.ts) ===== -/

/-- JavaScript Array.findIndex: index of the first element satisfying the
predicate, or -1 when none does. -/
def jsFindIndex {α : Type} (p : α → Bool) : List α → ℤ
  | [] => -1
  | a :: t =>
      if p a then 0
      else if jsFindIndex p t = -1 then -1 else jsFindIndex p t + 1

/-- The filter inside getEdgeCurveOffset: all edges sharing the unordered
node pair {s, t} (direction-insensitive). -/
def pairGroup (s t : String) (allEdges : List Edge) : List Edge :=
  allEdges.filter (fun e =>
    (e.source == s && e.target == t) || (e.source == t && e.target == s))

/-- Shared body of the two getEdgeCurveOffset variants; `spacing` is the
only difference between them (0.8 in the app variant, 0.6 in the library
variant). -/
def curveOffsetCore (spacing : ℚ) (edge : Edge) (allEdges : List Edge) : ℚ :=
  let related := pairGroup edge.source edge.target allEdges
  if related.length ≤ 1 then 0
  else
    ((jsFindIndex (fun e => e.id == edge.id) related : ℚ)
      - ((related.length : ℚ) - 1) / 2) * spacing

/-- getEdgeCurveOffset, app variant (spacing factor 0.8). -/
def getEdgeCurveOffset (edge : Edge) (allEdges : List Edge) : ℚ :=
  curveOffsetCore 0.8 edge allEdges

/-- getEdgeCurveOffset, library variant (spacing factor 0.6). -/
def getEdgeCurveOffsetLib (edge : Edge) (allEdges : List Edge) : ℚ :=
  curveOffsetCore 0.6 edge allEdges

/-- The filter inside getSelfLoopIndex, instantiated for the self-edges of
one node `a` (every member of the filter has source = target = a). -/
def selfGroup (a : String) (allEdges : List Edge) : List Edge :=
  allEdges.filter (fun e =>
    e.source == a && e.target == a && e.source == e.target)

/-- getSelfLoopIndex: index of the edge within the ordered list of
self-edges sharing its endpoints. -/
def getSelfLoopIndex (edge : Edge) (allEdges : List Edge) : ℤ :=
  jsFindIndex (fun e => e.id == edge.id)
    (allEdges.filter (fun e =>
      e.source == edge.source && e.target == edge.target
        && e.source == e.target))

/-- Loop size of a self-loop: SELF_LOOP_BASE_SIZE + index * SELF_LOOP_INCREMENT
(line 57 of src/src/utils/index.ts). -/
def selfLoopSize (selfLoopIndex : ℤ) : ℚ :=
  SELF_LOOP_BASE_SIZE + (selfLoopIndex : ℚ) * SELF_LOOP_INCREMENT

/-- Base angle in degrees of a self-loop: -45 plus a 25-degree rotation per
index (lines 58-59 of src/src/utils/index.ts). -/
def selfLoopBaseAngle (selfLoopIndex : ℤ) : ℚ :=
  -45 + (selfLoopIndex : ℚ) * 25

/- ===== JavaScript number model for the path geometry ===== -/

/-- A JavaScript number: `none` models a non-finite value (NaN or ±Infinity);
`some r` models a finite value. -/
abbrev JNum := Option ℝ

/-- A finite JavaScript number. -/
def jr (r : ℝ) : JNum := some r

/-- A finite JavaScript number given by a rational (every double is one). -/
def jq (q : ℚ) : JNum := some (q : ℝ)

/-- Lift a total binary real operation; non-finite operands contaminate the
result (as NaN does in IEEE arithmetic). -/
def jbin (f : ℝ → ℝ → ℝ) : JNum → JNum → JNum
  | some a, some b => some (f a b)
  | _, _ => none

/-- Lift a total unary real operation. -/
def jun (f : ℝ → ℝ) : JNum → JNum
  | some a => some (f a)
  | none => none

/-- JavaScript addition (finite operands assumed not to overflow). -/
def jadd : JNum → JNum → JNum := jbin (fun a b => a + b)

/-- JavaScript subtraction. -/
def jsub : JNum → JNum → JNum := jbin (fun a b => a - b)

/-- JavaScript multiplication. -/
def jmul : JNum → JNum → JNum := jbin (fun a b => a * b)

/-- JavaScript division: division by zero yields a non-finite value
(NaN for 0/0, ±Infinity otherwise). -/
noncomputable def jdiv : JNum → JNum → JNum
  | some a, some b => if b = 0 then none else some (a / b)
  | _, _ => none

/-- JavaScript unary minus. -/
def jneg : JNum → JNum := jun (fun a => -a)

/-- Math.abs. -/
def jabs : JNum → JNum := jun (fun a => |a|)

/-- Math.cos. -/
noncomputable def jcos : JNum → JNum := jun Real.cos

/-- Math.sin. -/
noncomputable def jsin : JNum → JNum := jun Real.sin

/-- Math.sqrt: negative arguments give NaN. -/
noncomputable def jsqrt : JNum → JNum
  | some a => if a < 0 then none else some (Real.sqrt a)
  | none => none

/-- Math.atan2 on finite arguments (always finite; atan2 0 0 = 0). -/
noncomputable def atan2 (y x : ℝ) : ℝ :=
  if 0 < x then Real.arctan (y / x)
  else if x < 0 then
    (if 0 ≤ y then Real.arctan (y / x) + Real.pi
     else Real.arctan (y / x) - Real.pi)
  else
    (if 0 < y then Real.pi / 2 else if y < 0 then -(Real.pi / 2) else 0)

/-- Math.atan2 lifted to JavaScript numbers. -/
noncomputable def jatan2 : JNum → JNum → JNum := jbin atan2

/-- The data computed by getEdgePath. The SVG path string is represented by
the list of numbers interpolated into it, in order of appearance. -/
structure EdgePathData where
  pathPoints : List JNum
  labelX : JNum
  labelY : JNum
  arrowX : JNum
  arrowY : JNum
  arrowAngle : JNum

/-- All fields of the geometry are finite numbers. -/
def EdgePathData.allFinite (d : EdgePathData) : Prop :=
  (∀ v ∈ d.pathPoints, v.isSome = true) ∧ d.labelX.isSome = true
    ∧ d.labelY.isSome = true ∧ d.arrowX.isSome = true
    ∧ d.arrowY.isSome = true ∧ d.arrowAngle.isSome = true

/-- getEdgePath (app variant, src/src/utils/index.ts lines 46-115). -/
noncomputable def getEdgePath (sourceX sourceY targetX targetY curveOffset : JNum)
    (isSelf : Bool) (selfLoopIndex : ℤ) : EdgePathData :=
  if isSelf then
    let loopSize : ℚ := selfLoopSize selfLoopIndex
    let radians : ℝ := ((selfLoopBaseAngle selfLoopIndex : ℚ) : ℝ) * Real.pi / 180
    let startAngle : ℝ := radians - 0.4
    let endAngle : ℝ := radians + 0.4
    let startX := jadd sourceX (jr (Real.cos startAngle * (NODE_RADIUS : ℝ)))
    let startY := jadd sourceY (jr (Real.sin startAngle * (NODE_RADIUS : ℝ)))
    let endX := jadd sourceX (jr (Real.cos endAngle * (NODE_RADIUS : ℝ)))
    let endY := jadd sourceY (jr (Real.sin endAngle * (NODE_RADIUS : ℝ)))
    let controlDistance : ℚ := loopSize * 2
    let cx := jadd sourceX (jr (Real.cos radians * (controlDistance : ℝ)))
    let cy := jadd sourceY (jr (Real.sin radians * (controlDistance : ℝ)))
    { pathPoints := [startX, startY, cx, cy, endX, endY],
      labelX := jadd sourceX (jr (Real.cos radians * ((loopSize * 1.4 : ℚ) : ℝ))),
      labelY := jadd sourceY (jr (Real.sin radians * ((loopSize * 1.4 : ℚ) : ℝ))),
      arrowX := endX,
      arrowY := endY,
      arrowAngle := jr (endAngle * 180 / Real.pi + 90) }
  else
    let dx := jsub targetX sourceX
    let dy := jsub targetY sourceY
    let dist := jsqrt (jadd (jmul dx dx) (jmul dy dy))
    let angle := jatan2 dy dx
    let sx := jadd sourceX (jmul (jcos angle) (jq NODE_RADIUS))
    let sy := jadd sourceY (jmul (jsin angle) (jq NODE_RADIUS))
    let tx := jsub targetX (jmul (jcos angle) (jq NODE_RADIUS))
    let ty := jsub targetY (jmul (jsin angle) (jq NODE_RADIUS))
    let perpX := jdiv (jneg dy) dist
    let perpY := jdiv dx dist
    let curveAmount := jmul curveOffset (jq 70)
    let midX := jadd (jdiv (jadd sx tx) (jq 2)) (jmul perpX curveAmount)
    let midY := jadd (jdiv (jadd sy ty) (jq 2)) (jmul perpY curveAmount)
    let t : ℝ := 0.5
    let labelX := jadd (jadd (jmul (jr ((1 - t) * (1 - t))) sx)
      (jmul (jr (2 * (1 - t) * t)) midX)) (jmul (jr (t * t)) tx)
    let labelY := jadd (jadd (jmul (jr ((1 - t) * (1 - t))) sy)
      (jmul (jr (2 * (1 - t) * t)) midY)) (jmul (jr (t * t)) ty)
    { pathPoints := [sx, sy, midX, midY, tx, ty],
      labelX := labelX,
      labelY := jsub (jsub labelY (jq 12)) (jmul (jabs curveOffset) (jq 12)),
      arrowX := tx,
      arrowY := ty,
      arrowAngle := jdiv (jmul (jatan2 (jsub ty midY) (jsub tx midX)) (jq 180))
        (jr Real.pi) }

/-- Default edge payload used for concrete test inputs. -/
def sampleEdgeData : Neo4jEdgeData :=
  { relationshipType := "RELATES_TO", properties := [], color := "#6b7280" }

/-- Three parallel edges between nodes "a" and "b" (one reversed). -/
def sampleParallelEdges : List Edge :=
  [⟨"1", "a", "b", sampleEdgeData⟩, ⟨"2", "a", "b", sampleEdgeData⟩,
   ⟨"3", "b", "a", sampleEdgeData⟩]

/-- Two self-edges on node "a". -/
def sampleSelfEdges : List Edge :=
  [⟨"1", "a", "a", sampleEdgeData⟩, ⟨"2", "a", "a", sampleEdgeData⟩]

/- ===== Helper lemmas for the edge-group layout functions ===== -/

lemma jsFindIndex_spec {α : Type} (p : α → Bool) (l : List α) (k : ℕ)
    (hk : k < l.length)
    (hbefore : ∀ j : ℕ, j < k → ∀ hj : j < l.length, p (l.get ⟨j, hj⟩) = false)
    (hp : p (l.get ⟨k, hk⟩) = true) :
    jsFindIndex p l = (k : ℤ) := by
  induction l generalizing k with
  | nil => exact absurd hk (by simp)
  | cons a t ih =>
      cases k with
      | zero =>
          have ha : p a = true := hp
          simp [jsFindIndex, ha]
      | succ k =>
          have ha : p a = false := hbefore 0 (Nat.succ_pos k) (by simp)
          have hk2 : k < t.length := Nat.lt_of_succ_lt_succ hk
          have ht : jsFindIndex p t = (k : ℤ) := by
            refine ih k hk2 ?_ hp
            intro j hj hjl
            exact hbefore (j + 1) (Nat.succ_lt_succ hj) (Nat.succ_lt_succ hjl)
          have hne : (k : ℤ) ≠ -1 := by omega
          simp only [jsFindIndex, ha, Bool.false_eq_true, if_false, ht,
            if_neg hne]
          push_cast
          ring

lemma jsFindIndex_id_get (l : List Edge) (hnd : (l.map Edge.id).Nodup)
    (k : ℕ) (hk : k < l.length) :
    jsFindIndex (fun e => e.id == (l.get ⟨k, hk⟩).id) l = (k : ℤ) := by
  refine jsFindIndex_spec _ l k hk ?_ (by simp)
  intro j hj hjl
  have hne : (l.get ⟨j, hjl⟩).id ≠ (l.get ⟨k, hk⟩).id := by
    intro h
    have hjm : j < (l.map Edge.id).length := by simpa using hjl
    have hkm : k < (l.map Edge.id).length := by simpa using hk
    have hmap : (l.map Edge.id).get ⟨j, hjm⟩ = (l.map Edge.id).get ⟨k, hkm⟩ := by
      simpa [List.getElem_map] using h
    have hinj := (List.Nodup.get_inj_iff hnd).1 hmap
    have hjk : j = k := by simpa using hinj
    omega
  simp only [beq_eq_false_iff_ne, ne_eq]
  exact hne

lemma filter_ids_nodup (p : Edge → Bool) (l : List Edge)
    (hnd : (l.map Edge.id).Nodup) : ((l.filter p).map Edge.id).Nodup :=
  List.Nodup.sublist (List.Sublist.map Edge.id (List.filter_sublist l)) hnd

lemma pairGroup_comm (s t : String) (l : List Edge) :
    pairGroup t s l = pairGroup s t l := by
  unfold pairGroup
  apply List.filter_congr
  intro e _
  exact Bool.or_comm _ _

lemma mem_pairGroup (e : Edge) (s t : String) (l : List Edge)
    (h : e ∈ pairGroup s t l) :
    (e.source = s ∧ e.target = t) ∨ (e.source = t ∧ e.target = s) := by
  have hb := (List.mem_filter.1 h).2
  simpa [Bool.or_eq_true, Bool.and_eq_true, beq_iff_eq] using hb

lemma pairGroup_of_mem (e : Edge) (s t : String) (l : List Edge)
    (h : e ∈ pairGroup s t l) :
    pairGroup e.source e.target l = pairGroup s t l := by
  rcases mem_pairGroup e s t l h with ⟨h1, h2⟩ | ⟨h1, h2⟩
  · rw [h1, h2]
  · rw [h1, h2]
    exact pairGroup_comm s t l

lemma curveOffsetCore_get (c : ℚ) (l : List Edge) (s t : String)
    (hnd : (l.map Edge.id).Nodup) (h2 : 2 ≤ (pairGroup s t l).length)
    (k : ℕ) (hk : k < (pairGroup s t l).length) :
    curveOffsetCore c ((pairGroup s t l).get ⟨k, hk⟩) l
      = ((k : ℚ) - (((pairGroup s t l).length : ℚ) - 1) / 2) * c := by
  have hmem : (pairGroup s t l).get ⟨k, hk⟩ ∈ pairGroup s t l :=
    List.get_mem _ _ _
  have hgrp := pairGroup_of_mem _ s t l hmem
  have hlen : ¬ ((pairGroup s t l).length ≤ 1) := by omega
  have hnd2 : ((pairGroup s t l).map Edge.id).Nodup :=
    filter_ids_nodup _ l hnd
  simp only [curveOffsetCore, hgrp, if_neg hlen,
    jsFindIndex_id_get (pairGroup s t l) hnd2 k hk]
  push_cast
  ring

lemma curveOffsetCore_map (c : ℚ) (l : List Edge) (s t : String)
    (hnd : (l.map Edge.id).Nodup) (h2 : 2 ≤ (pairGroup s t l).length) :
    (pairGroup s t l).map (fun e => curveOffsetCore c e l)
      = (List.range (pairGroup s t l).length).map
          (fun k : ℕ => ((k : ℚ) - (((pairGroup s t l).length : ℚ) - 1) / 2) * c) := by
  apply List.ext_getElem
  · simp
  · intro i h1 h2'
    simp only [List.getElem_map, List.getElem_range]
    have hi : i < (pairGroup s t l).length := by simpa using h1
    exact curveOffsetCore_get c l s t hnd h2 i hi

lemma rangeOffsets_pairwise (n : ℕ) (c : ℚ) (hc : 0 < c) :
    ((List.range n).map (fun k : ℕ => ((k : ℚ) - ((n : ℚ) - 1) / 2) * c)).Pairwise
      (fun a b => a < b) := by
  refine List.Pairwise.map _ ?_ (List.pairwise_lt_range n)
  intro a b hab
  have hq : (a : ℚ) < b := by exact_mod_cast hab
  have := mul_lt_mul_of_pos_right
    (sub_lt_sub_right hq (((n : ℚ) - 1) / 2)) hc
  exact this

lemma rangeOffsets_reverse (n : ℕ) (c : ℚ) :
    ((List.range n).map (fun k : ℕ => ((k : ℚ) - ((n : ℚ) - 1) / 2) * c)).reverse
      = ((List.range n).map
          (fun k : ℕ => ((k : ℚ) - ((n : ℚ) - 1) / 2) * c)).map (fun x => -x) := by
  apply List.ext_getElem
  · simp
  · intro i h1 h2
    have hi : i < n := by simpa using h1
    have hn1 : 1 ≤ n := by omega
    have hin : i ≤ n - 1 := by omega
    simp only [List.getElem_reverse, List.getElem_map, List.getElem_range,
      List.length_map, List.length_range]
    rw [Nat.cast_sub hin, Nat.cast_sub hn1]
    push_cast
    ring

lemma curveOffsetCore_group_props (c : ℚ) (hc : 0 < c) (l : List Edge)
    (s t : String) (hnd : (l.map Edge.id).Nodup)
    (h2 : 2 ≤ (pairGroup s t l).length) :
    ((pairGroup s t l).map (fun e => curveOffsetCore c e l)).Pairwise
        (fun a b => a < b) ∧
    ((pairGroup s t l).map (fun e => curveOffsetCore c e l)).Nodup ∧
    ((((pairGroup s t l).map (fun e => curveOffsetCore c e l)).map
        (fun x => -x) : List ℚ) : Multiset ℚ)
      = (((pairGroup s t l).map (fun e => curveOffsetCore c e l) :
          List ℚ) : Multiset ℚ) := by
  rw [curveOffsetCore_map c l s t hnd h2]
  refine ⟨rangeOffsets_pairwise _ c hc, ?_, ?_⟩
  · exact List.Pairwise.imp (fun h => ne_of_lt h)
      (rangeOffsets_pairwise _ c hc)
  · rw [← rangeOffsets_reverse]
    exact Multiset.coe_reverse _

lemma mem_selfGroup (e : Edge) (a : String) (l : List Edge)
    (h : e ∈ selfGroup a l) : e.source = a ∧ e.target = a := by
  have hb := (List.mem_filter.1 h).2
  simp only [Bool.and_eq_true, beq_iff_eq] at hb
  exact ⟨hb.1.1, hb.1.2⟩

lemma selfGroup_filter_eq (e : Edge) (a : String) (l : List Edge)
    (he : e ∈ selfGroup a l) :
    l.filter (fun x => x.source == e.source && x.target == e.target
        && x.source == x.target) = selfGroup a l := by
  obtain ⟨h1, h2⟩ := mem_selfGroup e a l he
  rw [h1, h2]
  rfl

lemma getSelfLoopIndex_get (l : List Edge) (a : String)
    (hnd : (l.map Edge.id).Nodup) (k : ℕ)
    (hk : k < (selfGroup a l).length) :
    getSelfLoopIndex ((selfGroup a l).get ⟨k, hk⟩) l = (k : ℤ) := by
  have hmem : (selfGroup a l).get ⟨k, hk⟩ ∈ selfGroup a l :=
    List.get_mem _ _ _
  have hnd2 : ((selfGroup a l).map Edge.id).Nodup := filter_ids_nodup _ l hnd
  unfold getSelfLoopIndex
  rw [selfGroup_filter_eq _ a l hmem]
  exact jsFindIndex_id_get (selfGroup a l) hnd2 k hk

/- ===== Helper lemmas for the JavaScript number model ===== -/

lemma jadd_some_some (a b : ℝ) : jadd (some a) (some b) = some (a + b) := rfl

lemma jsub_some_some (a b : ℝ) : jsub (some a) (some b) = some (a - b) := rfl

lemma jmul_some_some (a b : ℝ) : jmul (some a) (some b) = some (a * b) := rfl

lemma jneg_some (a : ℝ) : jneg (some a) = some (-a) := rfl

lemma jabs_some (a : ℝ) : jabs (some a) = some |a| := rfl

lemma jcos_some (a : ℝ) : jcos (some a) = some (Real.cos a) := rfl

lemma jsin_some (a : ℝ) : jsin (some a) = some (Real.sin a) := rfl

lemma jatan2_some_some (a b : ℝ) :
    jatan2 (some a) (some b) = some (atan2 a b) := rfl

lemma jsqrt_some (a : ℝ) (h : 0 ≤ a) :
    jsqrt (some a) = some (Real.sqrt a) := by
  simp [jsqrt, not_lt.2 h]

lemma jdiv_some_some (a b : ℝ) (h : b ≠ 0) :
    jdiv (some a) (some b) = some (a / b) := by
  simp [jdiv, h]

lemma jdiv_zero_den (a : JNum) : jdiv a (some 0) = none := by
  cases a <;> simp [jdiv]

lemma jadd_none_left (b : JNum) : jadd none b = none := by
  cases b <;> rfl

lemma jadd_none_right (a : JNum) : jadd a none = none := by
  cases a <;> rfl

lemma jsub_none_left (b : JNum) : jsub none b = none := by
  cases b <;> rfl

lemma jsub_none_right (a : JNum) : jsub a none = none := by
  cases a <;> rfl

lemma jmul_none_left (b : JNum) : jmul none b = none := by
  cases b <;> rfl

lemma jmul_none_right (a : JNum) : jmul a none = none := by
  cases a <;> rfl

lemma jatan2_none_left (b : JNum) : jatan2 none b = none := by
  cases b <;> rfl

lemma jatan2_none_right (a : JNum) : jatan2 a none = none := by
  cases a <;> rfl

lemma jdiv_none_left (b : JNum) : jdiv none b = none := by
  cases b <;> simp [jdiv]

lemma jdiv_none_right (a : JNum) : jdiv a none = none := by
  cases a <;> simp [jdiv]

lemma getEdgePath_nonself_allFinite (sX sY tX tY co : ℝ)
    (h : tX - sX ≠ 0 ∨ tY - sY ≠ 0) :
    (getEdgePath (some sX) (some sY) (some tX) (some tY) (some co)
      false 0).allFinite := by
  have hA : 0 < (tX - sX) * (tX - sX) + (tY - sY) * (tY - sY) := by
    rcases h with h1 | h1
    · exact add_pos_of_pos_of_nonneg (mul_self_pos.2 h1)
        (mul_self_nonneg _)
    · exact add_pos_of_nonneg_of_pos (mul_self_nonneg _)
        (mul_self_pos.2 h1)
  have hs : Real.sqrt ((tX - sX) * (tX - sX) + (tY - sY) * (tY - sY)) ≠ 0 :=
    ne_of_gt (Real.sqrt_pos.2 hA)
  have h2q : ((2 : ℚ) : ℝ) ≠ 0 := by norm_num
  simp only [getEdgePath, Bool.false_eq_true, if_false]
  simp [EdgePathData.allFinite, jq, jr, jsub_some_some, jmul_some_some,
    jadd_some_some, jneg_some, jcos_some, jsin_some, jatan2_some_some,
    jabs_some, jsqrt_some _ hA.le, jdiv_some_some, hs, h2q,
    Real.pi_ne_zero]

lemma getEdgePath_zero_distance (x y co : ℚ) :
    (getEdgePath (jq x) (jq y) (jq x) (jq y) (jq co) false 0).labelX = none ∧
    (getEdgePath (jq x) (jq y) (jq x) (jq y) (jq co) false 0).labelY = none ∧
    (getEdgePath (jq x) (jq y) (jq x) (jq y) (jq co) false 0).arrowAngle
      = none ∧
    (getEdgePath (jq x) (jq y) (jq x) (jq y) (jq co)
      false 0).arrowX.isSome = true ∧
    (getEdgePath (jq x) (jq y) (jq x) (jq y) (jq co)
      false 0).arrowY.isSome = true := by
  simp only [getEdgePath, Bool.false_eq_true, if_false]
  simp [jq, jsub_some_some, jmul_some_some, jadd_some_some, jneg_some,
    jcos_some, jsin_some, jatan2_some_some, jabs_some, sub_self,
    jsqrt_some 0 le_rfl, Real.sqrt_zero, neg_zero, jdiv_zero_den,
    jmul_none_left, jmul_none_right, jadd_none_left, jadd_none_right,
    jsub_none_left, jsub_none_right, jatan2_none_left, jatan2_none_right,
    jdiv_none_left, jdiv_none_right]

/- ===== Theorems ===== -/

/-- Claim C1 counterexample: at coinciding source and target with
isSelf = false, getEdgePath divides by the zero distance and the returned
geometry is NOT all-finite (labelX is the non-finite value), refuting the
claimed explicit distance check. -/
theorem c1_zero_distance_counterexample :
    ¬ (getEdgePath (jq 100) (jq 100) (jq 100) (jq 100) (jq 0)
        false 0).allFinite := by
  intro h
  have hlabel := h.2.1
  have hnone := (getEdgePath_zero_distance 100 100 0).1
  rw [hnone] at hlabel
  simp at hlabel

/-- Claim C1 amended: the non-self branch of getEdgePath contains no
zero-distance check. When source and target differ, every geometry field is
finite; when they coincide, the perpendicular computation divides by zero
and labelX, labelY and arrowAngle are non-finite (NaN), while arrowX and
arrowY stay finite. -/
theorem c1_zero_distance_amended :
    (∀ (sx sy tx ty co : ℚ), ¬(tx = sx ∧ ty = sy) →
      (getEdgePath (jq sx) (jq sy) (jq tx) (jq ty) (jq co)
        false 0).allFinite) ∧
    (∀ (x y co : ℚ),
      (getEdgePath (jq x) (jq y) (jq x) (jq y) (jq co) false 0).labelX
        = none ∧
      (getEdgePath (jq x) (jq y) (jq x) (jq y) (jq co) false 0).labelY
        = none ∧
      (getEdgePath (jq x) (jq y) (jq x) (jq y) (jq co) false 0).arrowAngle
        = none ∧
      (getEdgePath (jq x) (jq y) (jq x) (jq y) (jq co)
        false 0).arrowX.isSome = true ∧
      (getEdgePath (jq x) (jq y) (jq x) (jq y) (jq co)
        false 0).arrowY.isSome = true) := by
  constructor
  · intro sx sy tx ty co h
    have hor : ((tx : ℚ) : ℝ) - ((sx : ℚ) : ℝ) ≠ 0 ∨
        ((ty : ℚ) : ℝ) - ((sy : ℚ) : ℝ) ≠ 0 := by
      rcases not_and_or.1 h with h1 | h1
      · left
        rw [sub_ne_zero]
        exact_mod_cast h1
      · right
        rw [sub_ne_zero]
        exact_mod_cast h1
    exact getEdgePath_nonself_allFinite _ _ _ _ _ hor
  · exact getEdgePath_zero_distance

/-- Witness for C1 amended at concrete distinct endpoints. -/
theorem c1_zero_distance_witness :
    (¬((3 : ℚ) = 0 ∧ (4 : ℚ) = 0)) ∧
    (getEdgePath (jq 0) (jq 0) (jq 3) (jq 4) (jq 1) false 0).allFinite :=
  ⟨by decide, c1_zero_distance_amended.1 0 0 3 4 1 (by decide)⟩

/-- Claim C2: for every edge list with distinct ids and every unordered node
pair with at least two parallel edges, the curve offsets over the related
group (in collection order) are strictly increasing, pairwise distinct, and
form a multiset symmetric about zero; an edge whose related group has at
most one member gets offset exactly 0. Both the app variant (0.8 spacing)
and the library variant (0.6 spacing) satisfy this. -/
theorem c2_parallel_edge_offsets (allEdges : List Edge) (s t : String)
    (hnd : (allEdges.map Edge.id).Nodup)
    (h2 : 2 ≤ (pairGroup s t allEdges).length) :
    (((pairGroup s t allEdges).map
        (fun e => getEdgeCurveOffset e allEdges)).Pairwise (fun a b => a < b) ∧
      ((pairGroup s t allEdges).map
        (fun e => getEdgeCurveOffset e allEdges)).Nodup ∧
      ((((pairGroup s t allEdges).map
          (fun e => getEdgeCurveOffset e allEdges)).map (fun x => -x) :
            List ℚ) : Multiset ℚ)
        = (((pairGroup s t allEdges).map
            (fun e => getEdgeCurveOffset e allEdges) : List ℚ) : Multiset ℚ)) ∧
    (((pairGroup s t allEdges).map
        (fun e => getEdgeCurveOffsetLib e allEdges)).Pairwise
          (fun a b => a < b) ∧
      ((pairGroup s t allEdges).map
        (fun e => getEdgeCurveOffsetLib e allEdges)).Nodup ∧
      ((((pairGroup s t allEdges).map
          (fun e => getEdgeCurveOffsetLib e allEdges)).map (fun x => -x) :
            List ℚ) : Multiset ℚ)
        = (((pairGroup s t allEdges).map
            (fun e => getEdgeCurveOffsetLib e allEdges) : List ℚ) :
              Multiset ℚ)) ∧
    (∀ (edge : Edge) (l : List Edge),
        (pairGroup edge.source edge.target l).length ≤ 1 →
        getEdgeCurveOffset edge l = 0 ∧ getEdgeCurveOffsetLib edge l = 0) := by
  refine ⟨?_, ?_, ?_⟩
  · exact curveOffsetCore_group_props 0.8 (by norm_num) allEdges s t hnd h2
  · exact curveOffsetCore_group_props 0.6 (by norm_num) allEdges s t hnd h2
  · intro edge l hle
    constructor <;>
      simp [getEdgeCurveOffset, getEdgeCurveOffsetLib, curveOffsetCore, hle]

/-- Witness for C2 on three concrete parallel edges between "a" and "b". -/
theorem c2_parallel_edge_offsets_witness :
    ((sampleParallelEdges.map Edge.id).Nodup ∧
      2 ≤ (pairGroup "a" "b" sampleParallelEdges).length) ∧
    ((pairGroup "a" "b" sampleParallelEdges).map
      (fun e => getEdgeCurveOffset e sampleParallelEdges)).Pairwise
        (fun a b => a < b) ∧
    ((((pairGroup "a" "b" sampleParallelEdges).map
        (fun e => getEdgeCurveOffset e sampleParallelEdges)).map
          (fun x => -x) : List ℚ) : Multiset ℚ)
      = (((pairGroup "a" "b" sampleParallelEdges).map
          (fun e => getEdgeCurveOffset e sampleParallelEdges) : List ℚ) :
            Multiset ℚ) :=
  ⟨⟨by decide, by decide⟩,
    (c2_parallel_edge_offsets sampleParallelEdges "a" "b"
        (by decide) (by decide)).1.1,
    (c2_parallel_edge_offsets sampleParallelEdges "a" "b"
        (by decide) (by decide)).1.2.2⟩

/-- Claim C7: for at least two self-edges on one node (indices taken from
getSelfLoopIndex), base angles and loop sizes are strictly increasing in
the group position, pairwise distinct, successive loops differ by exactly
25 degrees and by exactly SELF_LOOP_INCREMENT in size, and no two loops
share both angle and size. -/
theorem c7_self_loop_fanout (allEdges : List Edge) (a : String)
    (hnd : (allEdges.map Edge.id).Nodup)
    (h2 : 2 ≤ (selfGroup a allEdges).length) :
    (∀ (k l : ℕ) (hk : k < (selfGroup a allEdges).length)
        (hl : l < (selfGroup a allEdges).length), k < l →
        selfLoopBaseAngle
            (getSelfLoopIndex ((selfGroup a allEdges).get ⟨k, hk⟩) allEdges)
          < selfLoopBaseAngle
            (getSelfLoopIndex ((selfGroup a allEdges).get ⟨l, hl⟩) allEdges) ∧
        selfLoopSize
            (getSelfLoopIndex ((selfGroup a allEdges).get ⟨k, hk⟩) allEdges)
          < selfLoopSize
            (getSelfLoopIndex ((selfGroup a allEdges).get ⟨l, hl⟩) allEdges)) ∧
    (∀ (k l : ℕ) (hk : k < (selfGroup a allEdges).length)
        (hl : l < (selfGroup a allEdges).length), k ≠ l →
        selfLoopBaseAngle
            (getSelfLoopIndex ((selfGroup a allEdges).get ⟨k, hk⟩) allEdges)
          ≠ selfLoopBaseAngle
            (getSelfLoopIndex ((selfGroup a allEdges).get ⟨l, hl⟩) allEdges) ∧
        selfLoopSize
            (getSelfLoopIndex ((selfGroup a allEdges).get ⟨k, hk⟩) allEdges)
          ≠ selfLoopSize
            (getSelfLoopIndex ((selfGroup a allEdges).get ⟨l, hl⟩) allEdges)) ∧
    (∀ (k : ℕ) (hk : k < (selfGroup a allEdges).length)
        (hk1 : k + 1 < (selfGroup a allEdges).length),
        selfLoopBaseAngle
            (getSelfLoopIndex ((selfGroup a allEdges).get ⟨k + 1, hk1⟩)
              allEdges)
          - selfLoopBaseAngle
            (getSelfLoopIndex ((selfGroup a allEdges).get ⟨k, hk⟩) allEdges)
          = 25 ∧
        selfLoopSize
            (getSelfLoopIndex ((selfGroup a allEdges).get ⟨k + 1, hk1⟩)
              allEdges)
          - selfLoopSize
            (getSelfLoopIndex ((selfGroup a allEdges).get ⟨k, hk⟩) allEdges)
          = SELF_LOOP_INCREMENT) := by
  have key := getSelfLoopIndex_get allEdges a hnd
  refine ⟨?_, ?_, ?_⟩
  · intro k l hk hl hkl
    rw [key k hk, key l hl]
    have hq : (k : ℚ) < l := by exact_mod_cast hkl
    simp only [selfLoopBaseAngle, selfLoopSize, SELF_LOOP_BASE_SIZE,
      SELF_LOOP_INCREMENT]
    constructor <;> push_cast <;> linarith
  · intro k l hk hl hne
    rw [key k hk, key l hl]
    have hq : (k : ℚ) ≠ l := by exact_mod_cast hne
    simp only [selfLoopBaseAngle, selfLoopSize, SELF_LOOP_BASE_SIZE,
      SELF_LOOP_INCREMENT]
    constructor
    · intro heq
      apply hq
      push_cast at heq
      linarith
    · intro heq
      apply hq
      push_cast at heq
      linarith
  · intro k hk hk1
    rw [key (k + 1) hk1, key k hk]
    simp only [selfLoopBaseAngle, selfLoopSize, SELF_LOOP_BASE_SIZE,
      SELF_LOOP_INCREMENT]
    constructor <;> push_cast <;> ring

/-- Witness for C7 on two concrete self-edges of node "a". -/
theorem c7_self_loop_fanout_witness :
    ((sampleSelfEdges.map Edge.id).Nodup ∧
      2 ≤ (selfGroup "a" sampleSelfEdges).length) ∧
    (selfLoopBaseAngle
        (getSelfLoopIndex
          ((selfGroup "a" sampleSelfEdges).get ⟨0, by decide⟩)
          sampleSelfEdges)
      < selfLoopBaseAngle
        (getSelfLoopIndex
          ((selfGroup "a" sampleSelfEdges).get ⟨1, by decide⟩)
          sampleSelfEdges) ∧
     selfLoopSize
        (getSelfLoopIndex
          ((selfGroup "a" sampleSelfEdges).get ⟨0, by decide⟩)
          sampleSelfEdges)
      < selfLoopSize
        (getSelfLoopIndex
          ((selfGroup "a" sampleSelfEdges).get ⟨1, by decide⟩)
          sampleSelfEdges)) :=
  ⟨⟨by decide, by decide⟩,
    (c7_self_loop_fanout sampleSelfEdges "a" (by decide) (by decide)).1
      0 1 (by decide) (by decide) (by decide)⟩

/-- Claim C3: for all canvas coordinates, pan offsets, zoom factors in
[ZOOM_MIN, ZOOM_MAX] and a fixed container rectangle,
screenToCanvas after canvasToScreen returns the original point exactly
(hence within the 1e-6 tolerance). -/
theorem c3_coordinate_roundtrip (rect : Rect) (panOffset : Position)
    (zoom : ℚ) (x y : ℚ) (h1 : ZOOM_MIN ≤ zoom) (h2 : zoom ≤ ZOOM_MAX) :
    screenToCanvas rect panOffset zoom
        (canvasToScreen rect panOffset zoom x y).x
        (canvasToScreen rect panOffset zoom x y).y = ⟨x, y⟩ ∧
    |(screenToCanvas rect panOffset zoom
        (canvasToScreen rect panOffset zoom x y).x
        (canvasToScreen rect panOffset zoom x y).y).x - x| ≤ 1 / 1000000 ∧
    |(screenToCanvas rect panOffset zoom
        (canvasToScreen rect panOffset zoom x y).x
        (canvasToScreen rect panOffset zoom x y).y).y - y| ≤ 1 / 1000000 := by
  have hz : zoom ≠ 0 := by
    have h0 : (0 : ℚ) < zoom := lt_of_lt_of_le (by norm_num [ZOOM_MIN]) h1
    exact ne_of_gt h0
  have key : screenToCanvas rect panOffset zoom
      (canvasToScreen rect panOffset zoom x y).x
      (canvasToScreen rect panOffset zoom x y).y = ⟨x, y⟩ := by
    simp only [screenToCanvas, canvasToScreen, Position.mk.injEq]
    constructor <;> field_simp
  refine ⟨key, ?_, ?_⟩ <;> rw [key] <;> simp

/-- Witness for C3 at a concrete rectangle, pan, zoom and point. -/
theorem c3_coordinate_roundtrip_witness :
    (ZOOM_MIN ≤ (1 / 2 : ℚ) ∧ (1 / 2 : ℚ) ≤ ZOOM_MAX) ∧
    screenToCanvas ⟨10, 20⟩ ⟨5, 7⟩ (1 / 2)
        (canvasToScreen ⟨10, 20⟩ ⟨5, 7⟩ (1 / 2) 3 4).x
        (canvasToScreen ⟨10, 20⟩ ⟨5, 7⟩ (1 / 2) 3 4).y = ⟨3, 4⟩ :=
  ⟨⟨by norm_num [ZOOM_MIN], by norm_num [ZOOM_MAX]⟩,
    (c3_coordinate_roundtrip ⟨10, 20⟩ ⟨5, 7⟩ (1 / 2) 3 4
      (by norm_num [ZOOM_MIN]) (by norm_num [ZOOM_MAX])).1⟩

/-- Claim C4: starting from any zoom in [ZOOM_MIN, ZOOM_MAX], every sequence
of zoomIn (multiply by 1.2, clamp), zoomOut (multiply by 0.8, clamp) and
wheel zoom (multiply by 1.1 or 0.9, clamp) operations keeps the zoom factor
inside [ZOOM_MIN, ZOOM_MAX]. -/
theorem c4_zoom_clamp (z : ℚ) (ops : List ZoomOp)
    (h1 : ZOOM_MIN ≤ z) (h2 : z ≤ ZOOM_MAX) :
    ZOOM_MIN ≤ applyZoomOps z ops ∧ applyZoomOps z ops ≤ ZOOM_MAX := by
  have step : ∀ (op : ZoomOp) (w : ℚ), ZOOM_MIN ≤ w → w ≤ ZOOM_MAX →
      ZOOM_MIN ≤ applyZoomOp w op ∧ applyZoomOp w op ≤ ZOOM_MAX := by
    intro op w hw1 hw2
    rw [ZOOM_MIN] at hw1 ⊢
    rw [ZOOM_MAX] at hw2 ⊢
    cases op with
    | zin =>
        simp only [applyZoomOp, zoomIn, ZOOM_MIN, ZOOM_MAX]
        constructor
        · apply le_min (by norm_num)
          nlinarith
        · exact min_le_left _ _
    | zout =>
        simp only [applyZoomOp, zoomOut, ZOOM_MIN, ZOOM_MAX]
        constructor
        · exact le_max_left _ _
        · apply max_le (by norm_num)
          nlinarith
    | wheel d =>
        simp only [applyZoomOp, wheelZoom, ZOOM_MIN, ZOOM_MAX]
        constructor
        · exact le_max_left _ _
        · exact max_le (by norm_num) (min_le_left _ _)
  induction ops generalizing z with
  | nil => exact ⟨h1, h2⟩
  | cons op t ih =>
      exact ih (applyZoomOp z op) (step op z h1 h2).1 (step op z h1 h2).2

/-- Witness for C4 at zoom 1 and a concrete operation sequence. -/
theorem c4_zoom_clamp_witness :
    (ZOOM_MIN ≤ (1 : ℚ) ∧ (1 : ℚ) ≤ ZOOM_MAX) ∧
    ZOOM_MIN ≤ applyZoomOps 1
        [ZoomOp.zin, ZoomOp.zin, ZoomOp.wheel 5, ZoomOp.zout] ∧
    applyZoomOps 1 [ZoomOp.zin, ZoomOp.zin, ZoomOp.wheel 5, ZoomOp.zout]
        ≤ ZOOM_MAX :=
  ⟨⟨by norm_num [ZOOM_MIN], by norm_num [ZOOM_MAX]⟩,
    c4_zoom_clamp 1 [ZoomOp.zin, ZoomOp.zin, ZoomOp.wheel 5, ZoomOp.zout]
      (by norm_num [ZOOM_MIN]) (by norm_num [ZOOM_MAX])⟩

/-- Claim C5: selection is mutually exclusive — selectNode clears the edge
selection, selectEdge clears the node selection, clearSelection clears both,
and every state reachable from the initial state through these operations
has at most one non-null selection field. -/
theorem c5_selection_exclusive :
    (∀ (s : CanvasState) (id : Option String),
        (selectNode id s).selectedEdgeId = none) ∧
    (∀ (s : CanvasState) (id : Option String),
        (selectEdge id s).selectedNodeId = none) ∧
    (∀ s : CanvasState, (clearSelection s).selectedNodeId = none ∧
        (clearSelection s).selectedEdgeId = none) ∧
    (∀ ops : List SelOp,
        selectionExclusive (applySelOps initialCanvasState ops)) := by
  have step : ∀ (ops : List SelOp) (s : CanvasState), selectionExclusive s →
      selectionExclusive (applySelOps s ops) := by
    intro ops
    induction ops with
    | nil => intro s h; exact h
    | cons op t ih =>
        intro s _
        apply ih
        cases op with
        | node id => exact Or.inr rfl
        | edge id => exact Or.inl rfl
        | clear => exact Or.inl rfl
  exact ⟨fun s id => rfl, fun s id => rfl, fun s => ⟨rfl, rfl⟩,
    fun ops => step ops initialCanvasState (Or.inl rfl)⟩

/-- Claim C6: deleteNode removes the node with the given id and exactly the
edges touching it: afterwards no edge references the id, membership in both
collections is characterized exactly, and the surviving nodes and edges keep
their original relative order (sublists of the originals). -/
theorem c6_delete_node_cascade (s : SchemaState) (A : String) :
    (∀ e ∈ (deleteNode A s).edges, e.source ≠ A ∧ e.target ≠ A) ∧
    (∀ n : Node, n ∈ (deleteNode A s).nodes ↔ n ∈ s.nodes ∧ n.id ≠ A) ∧
    (∀ e : Edge, e ∈ (deleteNode A s).edges ↔
        e ∈ s.edges ∧ e.source ≠ A ∧ e.target ≠ A) ∧
    (deleteNode A s).nodes.Sublist s.nodes ∧
    (deleteNode A s).edges.Sublist s.edges := by
  refine ⟨?_, ?_, ?_, List.filter_sublist _, List.filter_sublist _⟩
  · intro e he
    have h := (List.mem_filter.1 he).2
    simp only [Bool.and_eq_true, bne_iff_ne] at h
    exact h
  · intro n
    simp [deleteNode, List.mem_filter]
  · intro e
    simp [deleteNode, List.mem_filter, and_assoc]

/-- Claim C8 (code bug): addEdge without explicit data picks the default
relationship type correctly ("SELF_REF" for a self-edge, "RELATES_TO"
otherwise) but sets labelStyle to "badge", which is not a member of the
declared union type RelationshipLabelStyle = "inline" | "top" | "bottom". -/
theorem c8_add_edge_label_style :
    (addEdge "e1" "n1" "n2" none ⟨[], []⟩).2.data.relationshipType
        = "RELATES_TO" ∧
    (addEdge "e2" "n1" "n1" none ⟨[], []⟩).2.data.relationshipType
        = "SELF_REF" ∧
    (addEdge "e1" "n1" "n2" none ⟨[], []⟩).2.data.labelStyle = some "badge" ∧
    isRelationshipLabelStyle "badge" = false := by
  refine ⟨rfl, rfl, rfl, rfl⟩

/-- Claim C9: an import document missing its nodes array or its edges array
is rejected as a whole and the schema state is left unchanged; a document
containing both arrays replaces both collections wholesale. -/
theorem c9_import_rejection (doc : ImportDoc) (s : SchemaState) :
    ((doc.nodes = none ∨ doc.edges = none) → handleFileImport doc s = s) ∧
    (∀ (ns : List Node) (es : List Edge),
        doc.nodes = some ns → doc.edges = some es →
        handleFileImport doc s = loadSchema ns es ∧
        (handleFileImport doc s).nodes = ns ∧
        (handleFileImport doc s).edges = es) := by
  constructor
  · intro h
    rcases h with h | h
    · cases he : doc.edges <;> simp [handleFileImport, h, he]
    · cases hn : doc.nodes <;> simp [handleFileImport, h, hn]
  · intro ns es hn he
    simp [handleFileImport, hn, he, loadSchema]

/-- Witness for C9: a document with no nodes array leaves a concrete state
untouched; a complete document replaces the collections. -/
theorem c9_import_rejection_witness :
    ((⟨none, some []⟩ : ImportDoc).nodes = none ∨
      (⟨none, some []⟩ : ImportDoc).edges = none) ∧
    handleFileImport ⟨none, some []⟩
        ⟨[⟨"n1", 0, 0, ⟨"A", [], "#FF6B6B", none, none⟩⟩], []⟩
      = ⟨[⟨"n1", 0, 0, ⟨"A", [], "#FF6B6B", none, none⟩⟩], []⟩ ∧
    handleFileImport ⟨some [], some []⟩
        ⟨[⟨"n1", 0, 0, ⟨"A", [], "#FF6B6B", none, none⟩⟩], []⟩
      = loadSchema [] [] :=
  ⟨Or.inl rfl,
    (c9_import_rejection ⟨none, some []⟩
      ⟨[⟨"n1", 0, 0, ⟨"A", [], "#FF6B6B", none, none⟩⟩], []⟩).1 (Or.inl rfl),
    ((c9_import_rejection ⟨some [], some []⟩
      ⟨[⟨"n1", 0, 0, ⟨"A", [], "#FF6B6B", none, none⟩⟩], []⟩).2 [] []
        rfl rfl).1⟩

/-- Claim C10: when the id is present, duplicateNode appends exactly one new
node at (x+120, y+60) whose label is the original label with "_copy"
appended and whose properties and color equal the original, leaving edges
and all previous nodes unchanged; when the id is absent it returns null and
changes nothing. -/
theorem c10_duplicate_node (s : SchemaState) (id newId : String) :
    (∀ node : Node, s.nodes.find? (fun n => n.id == id) = some node →
      (duplicateNode newId id s).1.nodes
          = s.nodes ++ [⟨newId, node.x + 120, node.y + 60,
              { node.data with label := node.data.label ++ "_copy" }⟩] ∧
      (duplicateNode newId id s).1.edges = s.edges ∧
      (duplicateNode newId id s).2
          = some ⟨newId, node.x + 120, node.y + 60,
              { node.data with label := node.data.label ++ "_copy" }⟩ ∧
      ({ node.data with label := node.data.label ++ "_copy" }).properties
          = node.data.properties ∧
      ({ node.data with label := node.data.label ++ "_copy" }).color
          = node.data.color) ∧
    (s.nodes.find? (fun n => n.id == id) = none →
      duplicateNode newId id s = (s, none)) := by
  constructor
  · intro node h
    simp [duplicateNode, h]
  · intro h
    simp only [duplicateNode, h]

/-- Witness for C10 at a concrete one-node store (both the present-id and
the absent-id branch). -/
theorem c10_duplicate_node_witness :
    (⟨[⟨"n1", 10, 20, ⟨"Person", [], "#FF6B6B", none, none⟩⟩],
        []⟩ : SchemaState).nodes.find? (fun n => n.id == "n1")
      = some ⟨"n1", 10, 20, ⟨"Person", [], "#FF6B6B", none, none⟩⟩ ∧
    (duplicateNode "n2" "n1"
        ⟨[⟨"n1", 10, 20, ⟨"Person", [], "#FF6B6B", none, none⟩⟩], []⟩).1.nodes
      = [⟨"n1", 10, 20, ⟨"Person", [], "#FF6B6B", none, none⟩⟩]
        ++ [⟨"n2", 10 + 120, 20 + 60,
            ⟨"Person" ++ "_copy", [], "#FF6B6B", none, none⟩⟩] ∧
    duplicateNode "n2" "zz"
        ⟨[⟨"n1", 10, 20, ⟨"Person", [], "#FF6B6B", none, none⟩⟩], []⟩
      = (⟨[⟨"n1", 10, 20, ⟨"Person", [], "#FF6B6B", none, none⟩⟩], []⟩,
          none) :=
  ⟨by decide,
    ((c10_duplicate_node
        ⟨[⟨"n1", 10, 20, ⟨"Person", [], "#FF6B6B", none, none⟩⟩], []⟩
        "n1" "n2").1
      ⟨"n1", 10, 20, ⟨"Person", [], "#FF6B6B", none, none⟩⟩ (by decide)).1,
    (c10_duplicate_node
        ⟨[⟨"n1", 10, 20, ⟨"Person", [], "#FF6B6B", none, none⟩⟩], []⟩
        "zz" "n2").2 (by decide)⟩

end SchemaModeler
